import Mathlib

/-!
Verification of the filtering and aggregation core of the
`Global AI Content Impact Analysis` dashboard (`app2.py`).

The dashboard loads a fixed-schema table, filters it by three
multi-select widgets (years, countries, industries) and renders
group-by aggregations of the filtered view.  We embed the rows as a
Lean structure, the pandas boolean-mask filter as a `List.filter`, and
the `groupby(...)[col].agg().reset_index()` pipelines as explicit list
computations.  Floating-point columns are modelled as `Option ℚ`, with
`none` playing the role of a missing value / `NaN`: pandas `mean` and
`sum` skip missing values (`skipna=True` default), `mean` of an empty
selection is `NaN` (here `none`) and `sum` of an empty selection is `0`.
-/

/-- One row of `Global_AI_Content_Impact_Dataset.csv` (schema used by
`app2.py`).  Numeric columns are `Option ℚ`, `none` meaning a missing
value (`NaN`). -/
structure Record where
  year : Int
  country : String
  industry : String
  aiAdoptionRate : Option ℚ
  jobLoss : Option ℚ
  revenueIncrease : Option ℚ
  consumerTrust : Option ℚ
  contentVolume : Option ℚ
  collabRate : Option ℚ
  topTools : String
  regulationStatus : String
  deriving DecidableEq, Repr

/-- `df['Year'].isin(sel) & df['Country'].isin(sel) & df['Industry'].isin(sel)`
applied as a boolean mask (app2.py lines 67-71). -/
def filtered_df (df : List Record) (selYears : List Int)
    (selCountries selIndustries : List String) : List Record :=
  df.filter (fun r =>
    decide (r.year ∈ selYears) &&
    decide (r.country ∈ selCountries) &&
    decide (r.industry ∈ selIndustries))

/-- `sorted(df['Year'].unique())` (app2.py line 30).  pandas `unique`
keeps first occurrences; `sorted` then sorts ascending. -/
def years (df : List Record) : List Int :=
  List.insertionSort (· ≤ ·) (df.map Record.year).dedup

/-- `sorted(df['Country'].unique())` (app2.py line 31). -/
def countries (df : List Record) : List String :=
  List.insertionSort (· ≤ ·) (df.map Record.country).dedup

/-- `sorted(df['Industry'].unique())` (app2.py line 32). -/
def industries (df : List Record) : List String :=
  List.insertionSort (· ≤ ·) (df.map Record.industry).dedup

/-- The script's computation of the filtered view from the raw widget
values: `selected_industries` is assigned from the first
`Select Industries` multiselect (key `"industries_multiselect"`,
lines 53-58) and then immediately reassigned from the second,
key-less `Select Industries` multiselect (lines 60-64), before the
mask of lines 67-71 is applied. -/
def dashboardFiltered (df : List Record) (selYears : List Int)
    (selCountries industriesWidget1 industriesWidget2 : List String) :
    List Record :=
  let selected_industries := industriesWidget1
  let selected_industries := industriesWidget2
  filtered_df df selYears selCountries selected_industries

/-- pandas `Series.sum()` with the default `skipna=True`: missing values
contribute nothing, and the sum of an empty (or all-missing) series is `0`. -/
def seriesSum (vs : List (Option ℚ)) : ℚ :=
  (vs.filterMap id).sum

/-- pandas `Series.mean()` with the default `skipna=True`: missing values
are excluded from both the numerator and the denominator, and the mean
of an empty (or all-missing) series is `NaN`, modelled as `none`. -/
def seriesMean (vs : List (Option ℚ)) : Option ℚ :=
  let xs := vs.filterMap id
  if xs.length = 0 then none else some (xs.sum / (xs.length : ℚ))

/-- `sum` as a groupby aggregator (value wrapped in `Option` so all
aggregators share one type). -/
def aggSum (vs : List (Option ℚ)) : Option ℚ :=
  some (seriesSum vs)

/-- `count` as a groupby aggregator: pandas counts non-missing values. -/
def aggCount (vs : List (Option ℚ)) : Option ℚ :=
  some (((vs.filterMap id).length : ℚ))

/-- `df.groupby(key)[col].agg().reset_index()` with the default
`sort=True`: one output row per distinct key value present in `df`,
rows ordered ascending by key, each carrying the aggregate of the
column over the rows with that key. -/
def groupbyAgg {K : Type} [DecidableEq K] [LinearOrder K]
    (agg : List (Option ℚ) → Option ℚ) (key : Record → K)
    (col : Record → Option ℚ) (df : List Record) : List (K × Option ℚ) :=
  (List.insertionSort (· ≤ ·) (df.map key).dedup).map
    (fun k => (k, agg ((df.filter (fun r => decide (key r = k))).map col)))

/-- `filtered_df['AI Adoption Rate (%)'].mean()` (app2.py line 88). -/
def avg_adoption (fdf : List Record) : Option ℚ :=
  seriesMean (fdf.map Record.aiAdoptionRate)

/-- `filtered_df['Job Loss Due to AI (%)'].mean()` (line 91). -/
def avg_job_loss (fdf : List Record) : Option ℚ :=
  seriesMean (fdf.map Record.jobLoss)

/-- `filtered_df['Revenue Increase Due to AI (%)'].mean()` (line 94). -/
def avg_revenue (fdf : List Record) : Option ℚ :=
  seriesMean (fdf.map Record.revenueIncrease)

/-- `filtered_df['Consumer Trust in AI (%)'].mean()` (line 97). -/
def avg_trust (fdf : List Record) : Option ℚ :=
  seriesMean (fdf.map Record.consumerTrust)

/-- `filtered_df['AI-Generated Content Volume (TBs per year)'].sum()`
(line 105). -/
def total_content (fdf : List Record) : ℚ :=
  seriesSum (fdf.map Record.contentVolume)

/-- `filtered_df['Human-AI Collaboration Rate (%)'].mean()` (line 108). -/
def avg_collab (fdf : List Record) : Option ℚ :=
  seriesMean (fdf.map Record.collabRate)

/-- `filtered_df.groupby('Country')['AI-Generated Content Volume (TBs per
year)'].mean().reset_index()` (app2.py line 163) — the table behind the
"AI-Generated Content Volume by Country" bar chart.  Note the source
aggregates with `mean`, not `sum`. -/
def content_volume (fdf : List Record) : List (String × Option ℚ) :=
  groupbyAgg seriesMean Record.country Record.contentVolume fdf

/-- `filtered_df.groupby('Country')[metric].mean().reset_index()`
(line 178). -/
def country_metric (fdf : List Record) (metric : Record → Option ℚ) :
    List (String × Option ℚ) :=
  groupbyAgg seriesMean Record.country metric fdf

/-- `filtered_df.groupby('Industry')[metric].mean().reset_index()`
(line 208). -/
def industry_metric (fdf : List Record) (metric : Record → Option ℚ) :
    List (String × Option ℚ) :=
  groupbyAgg seriesMean Record.industry metric fdf

/-- Ordering used by `sort_values(col, ascending=False)` on an
aggregated table: descending by aggregate value, with missing aggregate
values placed last (pandas' default `na_position` for `sort_values`). -/
def naLastGe : Option ℚ → Option ℚ → Prop
  | some a, some b => b ≤ a
  | _, none => True
  | none, some _ => False

instance naLastGe.instDecidable : ∀ a b : Option ℚ, Decidable (naLastGe a b)
  | some x, some y => inferInstanceAs (Decidable (y ≤ x))
  | some _, none => .isTrue trivial
  | none, none => .isTrue trivial
  | none, some _ => .isFalse id

/-- The row ordering of a chart table sorted descending by its
aggregate-value column. -/
def chartOrder (p q : String × Option ℚ) : Prop :=
  naLastGe p.2 q.2

instance : DecidableRel chartOrder :=
  fun p q => naLastGe.instDecidable p.2 q.2

theorem naLastGe_total (a b : Option ℚ) : naLastGe a b ∨ naLastGe b a := by
  cases a <;> cases b <;> simp [naLastGe]
  exact le_total _ _

theorem naLastGe_trans (a b c : Option ℚ)
    (hab : naLastGe a b) (hbc : naLastGe b c) : naLastGe a c := by
  cases a <;> cases b <;> cases c <;> simp_all [naLastGe]
  exact hbc.trans hab

instance : IsTotal (String × Option ℚ) chartOrder :=
  ⟨fun p q => naLastGe_total p.2 q.2⟩

instance : IsTrans (String × Option ℚ) chartOrder :=
  ⟨fun p q r => naLastGe_trans p.2 q.2 r.2⟩

/-- `table.sort_values(col, ascending=False)` on an aggregated
(key, value) table. -/
def sort_values_desc (rows : List (String × Option ℚ)) :
    List (String × Option ℚ) :=
  List.insertionSort chartOrder rows

/-- The table handed to the country comparison bar chart:
`country_metric.sort_values(metric, ascending=False)` (line 179). -/
def country_metric_chart (fdf : List Record)
    (metric : Record → Option ℚ) : List (String × Option ℚ) :=
  sort_values_desc (country_metric fdf metric)

/-- The table handed to the industry comparison bar chart:
`industry_metric.sort_values(metric, ascending=False)` (line 209). -/
def industry_metric_chart (fdf : List Record)
    (metric : Record → Option ℚ) : List (String × Option ℚ) :=
  sort_values_desc (industry_metric fdf metric)

/-- `filtered_df.groupby(['Year', 'Country'])['AI Adoption Rate
(%)'].mean().reset_index()` (line 218): keys are (Year, Country) pairs
ordered lexicographically (pandas `sort=True` on the MultiIndex). -/
def country_trend (fdf : List Record) :
    List (Lex (Int × String) × Option ℚ) :=
  groupbyAgg seriesMean (fun r => toLex (r.year, r.country))
    Record.aiAdoptionRate fdf

/-- `filtered_df.groupby(['Year', 'Industry'])['AI Adoption Rate
(%)'].mean().reset_index()` (line 225). -/
def industry_trend (fdf : List Record) :
    List (Lex (Int × String) × Option ℚ) :=
  groupbyAgg seriesMean (fun r => toLex (r.year, r.industry))
    Record.aiAdoptionRate fdf

theorem c1_aux (df : List Record) (selYears : List Int)
    (selCountries selIndustries : List String) (r : Record) :
    r ∈ filtered_df df selYears selCountries selIndustries ↔
      r ∈ df ∧ r.year ∈ selYears ∧ r.country ∈ selCountries ∧
        r.industry ∈ selIndustries := by
  simp [filtered_df, List.mem_filter, and_assoc]

/-- C1: the FilteredView is exactly the set of records satisfying all
three membership predicates (conjunction across the three dimensions);
in particular it is a subset of the records. -/
theorem filtered_df_characterization (df : List Record) (selYears : List Int)
    (selCountries selIndustries : List String) :
    (∀ r, r ∈ filtered_df df selYears selCountries selIndustries ↔
        r ∈ df ∧ r.year ∈ selYears ∧ r.country ∈ selCountries ∧
          r.industry ∈ selIndustries) ∧
      filtered_df df selYears selCountries selIndustries ⊆ df := by
  refine ⟨c1_aux df selYears selCountries selIndustries, ?_⟩
  intro r hr
  exact ((c1_aux df selYears selCountries selIndustries r).mp hr).1

theorem filtered_df_nil_helper (df : List Record) (selYears : List Int)
    (selCountries selIndustries : List String)
    (h : selYears = [] ∨ selCountries = [] ∨ selIndustries = []) :
    filtered_df df selYears selCountries selIndustries = [] := by
  rw [List.eq_nil_iff_forall_not_mem]
  intro r hr
  obtain ⟨-, hy, hc, hi⟩ := (c1_aux df selYears selCountries selIndustries r).mp hr
  rcases h with h | h | h <;> subst h <;> simp_all

/-- C3: if any of the three selection sets is empty, the FilteredView is
the empty list (and the filter is a total function, so no error arises). -/
theorem filtered_df_empty_dim (df : List Record) (selYears : List Int)
    (selCountries selIndustries : List String)
    (h : selYears = [] ∨ selCountries = [] ∨ selIndustries = []) :
    filtered_df df selYears selCountries selIndustries = [] :=
  filtered_df_nil_helper df selYears selCountries selIndustries h

/-- Witness for C3 at a concrete input. -/
theorem filtered_df_empty_dim_witness :
    filtered_df [⟨2020, "USA", "Media", some 40, none, none, none, some 10,
        none, "ChatGPT", "Strict"⟩] [2020] [] ["Media"] = [] :=
  filtered_df_empty_dim _ [2020] [] ["Media"] (Or.inr (Or.inl rfl))

theorem mem_years (df : List Record) (r : Record) (h : r ∈ df) :
    r.year ∈ years df := by
  rw [years,
    (List.perm_insertionSort (· ≤ ·) (df.map Record.year).dedup).mem_iff,
    List.mem_dedup]
  exact List.mem_map_of_mem Record.year h

theorem mem_countries (df : List Record) (r : Record) (h : r ∈ df) :
    r.country ∈ countries df := by
  rw [countries,
    (List.perm_insertionSort (· ≤ ·) (df.map Record.country).dedup).mem_iff,
    List.mem_dedup]
  exact List.mem_map_of_mem Record.country h

theorem mem_industries (df : List Record) (r : Record) (h : r ∈ df) :
    r.industry ∈ industries df := by
  rw [industries,
    (List.perm_insertionSort (· ≤ ·) (df.map Record.industry).dedup).mem_iff,
    List.mem_dedup]
  exact List.mem_map_of_mem Record.industry h

/-- C4: with the full (default) selection on all three dimensions —
every distinct Year, Country and Industry present in the dataset —
filtering is the identity. -/
theorem filtered_df_full_selection (df : List Record) :
    filtered_df df (years df) (countries df) (industries df) = df := by
  rw [filtered_df, List.filter_eq_self]
  intro r hr
  simp [mem_years df r hr, mem_countries df r hr, mem_industries df r hr]

theorem lex_fst_le (k k' : Lex (Int × String)) (h : k ≤ k') :
    (ofLex k).1 ≤ (ofLex k').1 := by
  have h2 := (Prod.Lex.le_iff (ofLex k) (ofLex k')).mp (by simpa using h)
  rcases h2 with h' | ⟨h', -⟩
  · exact le_of_lt h'
  · exact le_of_eq h'

theorem trend_pairwise {key : Record → Lex (Int × String)}
    (col : Record → Option ℚ) (fdf : List Record) :
    (groupbyAgg seriesMean key col fdf).Pairwise
      (fun p q => (ofLex p.1).1 ≤ (ofLex q.1).1) := by
  unfold groupbyAgg
  rw [List.pairwise_map]
  exact (List.sorted_insertionSort (· ≤ ·) _).imp
    (fun h => lex_fst_le _ _ h)

/-- C6: the tables handed to the rendering boundary are ordered: the
country and industry metric comparison bars are sorted descending by
aggregate value (`sort_values(..., ascending=False)`), and the trend
tables grouped by Year and a secondary category are ordered ascending
by Year (lexicographic groupby key order). -/
theorem chart_tables_ordering (fdf : List Record)
    (metric : Record → Option ℚ) :
    List.Sorted chartOrder (country_metric_chart fdf metric) ∧
    List.Sorted chartOrder (industry_metric_chart fdf metric) ∧
    (country_trend fdf).Pairwise
      (fun p q => (ofLex p.1).1 ≤ (ofLex q.1).1) ∧
    (industry_trend fdf).Pairwise
      (fun p q => (ofLex p.1).1 ≤ (ofLex q.1).1) :=
  ⟨List.sorted_insertionSort chartOrder _,
   List.sorted_insertionSort chartOrder _,
   trend_pairwise Record.aiAdoptionRate fdf,
   trend_pairwise Record.aiAdoptionRate fdf⟩

theorem groupbyAgg_key_mem {K : Type} [DecidableEq K] [LinearOrder K]
    (agg : List (Option ℚ) → Option ℚ) (key : Record → K)
    (col : Record → Option ℚ) (df : List Record)
    (p : K × Option ℚ) (hp : p ∈ groupbyAgg agg key col df) :
    ∃ r ∈ df, key r = p.1 := by
  unfold groupbyAgg at hp
  obtain ⟨k, hk, rfl⟩ := List.mem_map.mp hp
  rw [(List.perm_insertionSort (· ≤ ·) _).mem_iff, List.mem_dedup] at hk
  obtain ⟨r, hr, rfl⟩ := List.mem_map.mp hk
  exact ⟨r, hr, rfl⟩

/-- C7: mean and sum skip missing values (a missing value contributes
neither to the sum nor to the mean's denominator), and every group key
emitted by a group-by aggregation comes from some row of the input:
a key with zero matching rows is absent from the output. -/
theorem agg_skips_missing_and_absent_groups {K : Type} [DecidableEq K]
    [LinearOrder K] (key : Record → K) (col : Record → Option ℚ)
    (df : List Record) (vs1 vs2 : List (Option ℚ)) :
    seriesMean (vs1 ++ none :: vs2) = seriesMean (vs1 ++ vs2) ∧
    seriesSum (vs1 ++ none :: vs2) = seriesSum (vs1 ++ vs2) ∧
    (∀ p ∈ groupbyAgg seriesMean key col df, ∃ r ∈ df, key r = p.1) := by
  refine ⟨?_, ?_, fun p hp => groupbyAgg_key_mem seriesMean key col df p hp⟩ <;>
    simp [seriesMean, seriesSum, List.filterMap_append, List.filterMap_cons, id]

/-- Witness for C7 at concrete inputs. -/
theorem agg_skips_missing_and_absent_groups_witness :
    seriesMean ([some 10] ++ none :: [some 20]) =
      seriesMean ([some 10] ++ [some 20]) ∧
    seriesSum ([some 10] ++ none :: [some 20]) =
      seriesSum ([some 10] ++ [some 20]) ∧
    (∀ p ∈ groupbyAgg seriesMean Record.country Record.contentVolume [],
      ∃ r ∈ ([] : List Record), Record.country r = p.1) :=
  agg_skips_missing_and_absent_groups Record.country Record.contentVolume
    [] [some 10] [some 20]

/-- Sample row: USA / Media / 2020, adoption 40 %, content volume 10 TB. -/
def rowUSA10 : Record :=
  ⟨2020, "USA", "Media", some 40, some 12, some 8, some 55, some 10,
    some 35, "ChatGPT", "Strict"⟩

/-- Sample row: USA / Media / 2020, adoption 60 %, content volume 20 TB. -/
def rowUSA20 : Record :=
  ⟨2020, "USA", "Media", some 60, some 14, some 9, some 65, some 20,
    some 45, "Claude", "Strict"⟩

/-- Sample row: UK / Retail / 2021, adoption 30 %, content volume 5 TB. -/
def rowUK : Record :=
  ⟨2021, "UK", "Retail", some 30, some 6, some 4, some 50, some 5,
    some 25, "Gemini", "Moderate"⟩

theorem seriesMean_perm {v v' : List (Option ℚ)} (h : v.Perm v') :
    seriesMean v = seriesMean v' := by
  unfold seriesMean
  have hp := h.filterMap id
  simp only [hp.length_eq, hp.sum_eq]

theorem aggSum_perm {v v' : List (Option ℚ)} (h : v.Perm v') :
    aggSum v = aggSum v' := by
  unfold aggSum seriesSum
  simp only [(h.filterMap id).sum_eq]

theorem aggCount_perm {v v' : List (Option ℚ)} (h : v.Perm v') :
    aggCount v = aggCount v' := by
  unfold aggCount
  simp only [(h.filterMap id).length_eq]

theorem sorted_keys_eq_of_perm {K : Type} [DecidableEq K] [LinearOrder K]
    (key : Record → K) {l l' : List Record} (h : l.Perm l') :
    List.insertionSort (· ≤ ·) (l.map key).dedup =
      List.insertionSort (· ≤ ·) (l'.map key).dedup := by
  exact List.eq_of_perm_of_sorted
    (((List.perm_insertionSort (· ≤ ·) _).trans ((h.map key).dedup)).trans
      (List.perm_insertionSort (· ≤ ·) _).symm)
    (List.sorted_insertionSort (· ≤ ·) _) (List.sorted_insertionSort (· ≤ ·) _)

theorem groupbyAgg_perm_aux {K : Type} [DecidableEq K] [LinearOrder K]
    (agg : List (Option ℚ) → Option ℚ) (key : Record → K)
    (col : Record → Option ℚ) {l l' : List Record} (h : l.Perm l')
    (hagg : ∀ {v v' : List (Option ℚ)}, v.Perm v' → agg v = agg v') :
    groupbyAgg agg key col l = groupbyAgg agg key col l' := by
  unfold groupbyAgg
  rw [sorted_keys_eq_of_perm key h]
  apply List.map_congr_left
  intro k _
  exact congrArg (Prod.mk k) (hagg ((h.filter _).map col))

/-- C8: group-by aggregation (mean, sum or count) is invariant under
permutation of the input rows: the resulting (key, value) table is
unchanged (the keys are re-sorted, so even the order is unchanged). -/
theorem groupby_perm_invariant {K : Type} [DecidableEq K] [LinearOrder K]
    (key : Record → K) (col : Record → Option ℚ) {l l' : List Record}
    (h : l.Perm l') :
    groupbyAgg seriesMean key col l = groupbyAgg seriesMean key col l' ∧
    groupbyAgg aggSum key col l = groupbyAgg aggSum key col l' ∧
    groupbyAgg aggCount key col l = groupbyAgg aggCount key col l' :=
  ⟨groupbyAgg_perm_aux seriesMean key col h seriesMean_perm,
   groupbyAgg_perm_aux aggSum key col h aggSum_perm,
   groupbyAgg_perm_aux aggCount key col h aggCount_perm⟩

/-- Witness for C8: swapping two concrete rows leaves all three
aggregations unchanged. -/
theorem groupby_perm_invariant_witness :
    groupbyAgg seriesMean Record.country Record.contentVolume
        [rowUSA10, rowUK] =
      groupbyAgg seriesMean Record.country Record.contentVolume
        [rowUK, rowUSA10] ∧
    groupbyAgg aggSum Record.country Record.contentVolume
        [rowUSA10, rowUK] =
      groupbyAgg aggSum Record.country Record.contentVolume
        [rowUK, rowUSA10] ∧
    groupbyAgg aggCount Record.country Record.contentVolume
        [rowUSA10, rowUK] =
      groupbyAgg aggCount Record.country Record.contentVolume
        [rowUK, rowUSA10] :=
  groupby_perm_invariant Record.country Record.contentVolume
    (List.Perm.swap rowUK rowUSA10 [])

theorem seriesMean_singleton (x : Option ℚ) : seriesMean [x] = x := by
  cases x <;> simp [seriesMean]

/-- C9: in a group-by mean aggregation, a group consisting of exactly
one row reports exactly that row's value in the aggregated column. -/
theorem mean_single_row_group {K : Type} [DecidableEq K] [LinearOrder K]
    (key : Record → K) (col : Record → Option ℚ) (df : List Record)
    (k : K) (r : Record)
    (h : df.filter (fun x => decide (key x = k)) = [r]) :
    (k, col r) ∈ groupbyAgg seriesMean key col df := by
  unfold groupbyAgg
  apply List.mem_map.mpr
  have hr : r ∈ df.filter (fun x => decide (key x = k)) := by
    rw [h]; exact List.mem_singleton_self r
  obtain ⟨hrdf, hrk⟩ := List.mem_filter.mp hr
  refine ⟨k, ?_, by rw [h]; simp [seriesMean_singleton]⟩
  rw [(List.perm_insertionSort (· ≤ ·) _).mem_iff, List.mem_dedup]
  exact List.mem_map.mpr ⟨r, hrdf, of_decide_eq_true hrk⟩

/-- Witness for C9: in `[rowUSA10, rowUK]` the UK group has exactly one
row, and the mean table contains that row's content volume exactly. -/
theorem mean_single_row_group_witness :
    ("UK", Record.contentVolume rowUK) ∈
      groupbyAgg seriesMean Record.country Record.contentVolume
        [rowUSA10, rowUK] :=
  mean_single_row_group Record.country Record.contentVolume
    [rowUSA10, rowUK] "UK" rowUK (by rfl)

/-- C10: the FilteredView depends only on the second `Select Industries`
widget: the value of the first industry multiselect (key
`"industries_multiselect"`) is overwritten before the filter is applied,
so varying it while holding the other inputs fixed never changes the
result. -/
theorem filtered_view_ignores_first_industry_widget (df : List Record)
    (selYears : List Int) (selCountries w1 w1' w2 : List String) :
    dashboardFiltered df selYears selCountries w1 w2 =
      dashboardFiltered df selYears selCountries w1' w2 := rfl

/-- C5: whenever the FilteredView is empty (for instance because the
countries selection is empty, by `filtered_df_nil_helper`), every
downstream aggregation produces an empty or `none` (= NaN, "no data")
result; all the operations are total Lean functions, so nothing can
raise. -/
theorem empty_filter_downstream_no_data (df : List Record)
    (selYears : List Int) (selCountries selIndustries : List String)
    (h : filtered_df df selYears selCountries selIndustries = []) :
    avg_adoption (filtered_df df selYears selCountries selIndustries) = none ∧
    avg_job_loss (filtered_df df selYears selCountries selIndustries) = none ∧
    avg_revenue (filtered_df df selYears selCountries selIndustries) = none ∧
    avg_trust (filtered_df df selYears selCountries selIndustries) = none ∧
    avg_collab (filtered_df df selYears selCountries selIndustries) = none ∧
    total_content (filtered_df df selYears selCountries selIndustries) = 0 ∧
    content_volume (filtered_df df selYears selCountries selIndustries) = [] ∧
    (∀ metric,
      country_metric (filtered_df df selYears selCountries selIndustries)
          metric = [] ∧
      industry_metric (filtered_df df selYears selCountries selIndustries)
          metric = []) ∧
    country_trend (filtered_df df selYears selCountries selIndustries) = [] ∧
    industry_trend (filtered_df df selYears selCountries selIndustries)
      = [] := by
  rw [h]
  exact ⟨rfl, rfl, rfl, rfl, rfl, rfl, rfl,
    fun metric => ⟨rfl, rfl⟩, rfl, rfl⟩

/-- Witness for C5: an empty countries selection empties the
FilteredView and every downstream aggregation degrades to "no data". -/
theorem empty_filter_downstream_no_data_witness :
    avg_adoption (filtered_df [rowUSA10] [2020] [] ["Media"]) = none ∧
    avg_job_loss (filtered_df [rowUSA10] [2020] [] ["Media"]) = none ∧
    avg_revenue (filtered_df [rowUSA10] [2020] [] ["Media"]) = none ∧
    avg_trust (filtered_df [rowUSA10] [2020] [] ["Media"]) = none ∧
    avg_collab (filtered_df [rowUSA10] [2020] [] ["Media"]) = none ∧
    total_content (filtered_df [rowUSA10] [2020] [] ["Media"]) = 0 ∧
    content_volume (filtered_df [rowUSA10] [2020] [] ["Media"]) = [] ∧
    (∀ metric,
      country_metric (filtered_df [rowUSA10] [2020] [] ["Media"])
          metric = [] ∧
      industry_metric (filtered_df [rowUSA10] [2020] [] ["Media"])
          metric = []) ∧
    country_trend (filtered_df [rowUSA10] [2020] [] ["Media"]) = [] ∧
    industry_trend (filtered_df [rowUSA10] [2020] [] ["Media"]) = [] :=
  empty_filter_downstream_no_data [rowUSA10] [2020] [] ["Media"] rfl

theorem content_volume_c2_eval :
    content_volume [rowUSA10, rowUSA20] =
      [("USA", seriesMean [some 10, some 20])] := rfl

theorem seriesMean_10_20 : seriesMean [some 10, some 20] = some 15 := by
  show (if ([(10:ℚ), 20]).length = 0 then none
    else some (([(10:ℚ), 20]).sum / (([(10:ℚ), 20]).length : ℚ))) = some 15
  norm_num

/-- C2 counterexample: the table behind the "AI-Generated Content Volume
by Country" chart, on a FilteredView whose USA rows have content volumes
10 and 20, does not contain the pair (USA, 30): the source aggregates
that chart with `mean`, not `sum`. -/
theorem content_volume_no_sum_pair :
    ("USA", some (30:ℚ)) ∉ content_volume [rowUSA10, rowUSA20] := by
  rw [content_volume_c2_eval, seriesMean_10_20]
  norm_num

/-- C2 (amended): a group-by-Country sum aggregation of content volume
does yield the per-country sum ((USA, 30) on USA rows 10 and 20), but
the aggregation used for the country volume chart (app2.py line 163) is
`mean`, so that chart's table yields (USA, 15) instead. -/
theorem content_volume_uses_mean :
    groupbyAgg aggSum Record.country Record.contentVolume
        [rowUSA10, rowUSA20] = [("USA", some 30)] ∧
    content_volume [rowUSA10, rowUSA20] = [("USA", some 15)] := by
  constructor
  · have h : groupbyAgg aggSum Record.country Record.contentVolume
        [rowUSA10, rowUSA20] = [("USA", aggSum [some 10, some 20])] := rfl
    rw [h]
    have h2 : aggSum [some 10, some 20] = some 30 := by
      show some (([(10:ℚ), 20]).sum) = some 30
      norm_num
    rw [h2]
  · rw [content_volume_c2_eval, seriesMean_10_20]
